import Mathlib

/-
Shallow embedding of terraform-provider-authproxy (internal/provider).

The three Go source files define a provider (provider.go), a Tenant resource,
a Role resource (role_resource.go) and a Tenant data source
(tenant_data_source.go).  Each CRUD handler follows the same shape:

  read model from plan/state; json.Marshal a request struct;
  http.NewRequestWithContext; SetBasicAuth; client.Do;
  if StatusCode != 200 { read body; on read error add diagnostic; else
  tflog.Error only and return }; read body; json.Unmarshal into the
  response struct; copy fields into the model; resp.State.Set.

Effectful steps (request construction, the network exchange, body read,
decoding) are modelled by an explicit environment `Env`; JSON request bodies
are modelled structurally by `Json`, mirroring the Go struct tags.
Terraform plan/state retrieval (req.Plan.Get / req.State.Get /
ElementsAs / ListValueFrom on string lists) cannot fail for the models in
question and is modelled by passing the descriptor values directly.
json.Marshal of structs whose fields are strings and string slices cannot
fail in Go, so that dead error branch is not modelled.
-/

inductive Severity where
  | error
  | warning
deriving DecidableEq, Repr

structure Diagnostic where
  severity : Severity
  summary : String
  detail : String
deriving DecidableEq, Repr

/-- resp.Diagnostics.AddError(summary, detail) with summary "Client Error",
as used by every handler in the source. -/
def clientError (detail : String) : Diagnostic :=
  { severity := Severity.error, summary := "Client Error", detail := detail }

/-- Structural model of a marshalled JSON value; objects keep the field
order of the Go struct tags. -/
inductive Json where
  | str (s : String)
  | arr (elems : List Json)
  | obj (fields : List (String × Json))

/-- An outgoing HTTP request: method, absolute URL, optional marshalled
body, and the basic-auth credentials attached by SetBasicAuth. -/
structure HttpRequest where
  method : String
  url : String
  body : Option Json
  basicAuth : Option (String × String)

/-- request.SetBasicAuth(username, password). -/
def HttpRequest.setBasicAuth (r : HttpRequest) (u p : String) : HttpRequest :=
  { r with basicAuth := some (u, p) }

/-- A completed HTTP exchange: the status code and the outcome of
io.ReadAll on the response body (error = read failure). -/
structure Response where
  statusCode : Nat
  readBody : Except String String

/-- Environment supplying the outcome of each effectful step of one
handler invocation: http.NewRequestWithContext (buildErr),
client.Do (doResult), and json.Unmarshal of the success schema (decode). -/
structure Env (α : Type) where
  buildErr : Option String
  doResult : Except String Response
  decode : String → Except String α

/-- Classification of one handler invocation's effect outcomes, in the
order the handlers consult them. -/
inductive Outcome (α : Type) where
  | buildFailed
  | transportFailed
  | rejectedUnreadable
  | rejectedLogged
  | readFailed
  | decodeFailed
  | success (a : α)

def Env.outcome {α : Type} (env : Env α) : Outcome α :=
  match env.buildErr with
  | some _ => Outcome.buildFailed
  | none =>
    match env.doResult with
    | Except.error _ => Outcome.transportFailed
    | Except.ok res =>
      if res.statusCode ≠ 200 then
        match res.readBody with
        | Except.error _ => Outcome.rejectedUnreadable
        | Except.ok _ => Outcome.rejectedLogged
      else
        match res.readBody with
        | Except.error _ => Outcome.readFailed
        | Except.ok body =>
          match env.decode body with
          | Except.error _ => Outcome.decodeFailed
          | Except.ok a => Outcome.success a

def Outcome.isSuccess {α : Type} : Outcome α → Bool
  | Outcome.success _ => true
  | _ => false

/-- Result of a Create/Read/Update handler (or the data source Read):
the accumulated diagnostics, the descriptor passed to resp.State.Set
(none when State.Set was not reached), and the request handed to
client.Do (none when request construction failed). -/
structure OpResult (σ : Type) where
  diagnostics : List Diagnostic
  state : Option σ
  sent : Option HttpRequest

/-- Result of a Delete handler: Delete never calls resp.State.Set, but it
does mutate its local descriptor on success; `data` is that local value
at return. -/
structure DeleteResult (σ : Type) where
  diagnostics : List Diagnostic
  data : σ
  sent : Option HttpRequest

/-- The state stored by Terraform after an operation: the descriptor
passed to State.Set if it was called, otherwise the prior state. -/
def storedAfter {σ : Type} (prior : σ) (r : OpResult σ) : σ :=
  r.state.getD prior

/-- ProviderData (provider.go): endpoint + credentials shared with every
resource and data source (the *http.Client handle is modelled by Env). -/
structure ProviderData where
  endpoint : String
  username : String
  password : String

/-- TenantResourceModel (role_resource.go): { name, id }. -/
structure TenantResourceModel where
  Name : String
  ID : String
deriving DecidableEq, Repr

/-- RoleResourceModel (role_resource.go): { id, name, tenant, scopes }. -/
structure RoleResourceModel where
  ID : String
  Name : String
  Tenant : String
  Scopes : List String
deriving DecidableEq, Repr

/-- TenantDataSourceModel (tenant_data_source.go): { id, name }. -/
structure TenantDataSourceModel where
  ID : String
  Name : String
deriving DecidableEq, Repr

/-- TenantResource struct: provider data plus a `name` field that no code
in the source ever assigns (it keeps the Go zero value ""). -/
structure TenantResource where
  providerData : ProviderData
  name : String

/-- RoleResource: the Go struct declares only providerData, but its Delete
handler reads r.name; the field is modelled explicitly and, like
TenantResource.name, is never assigned anywhere in the source. -/
structure RoleResource where
  providerData : ProviderData
  name : String

/-- TenantDataSource: client/endpoint/username/password copied from
ProviderData by Configure. -/
structure TenantDataSource where
  endpoint : String
  username : String
  password : String

/-- NewRoleResource() returns &RoleResource{}: all fields zero-valued. -/
def NewRoleResource : RoleResource :=
  { providerData := { endpoint := "", username := "", password := "" }, name := "" }

/-- NewTenantResource() returns &TenantResource{}. -/
def NewTenantResource : TenantResource :=
  { providerData := { endpoint := "", username := "", password := "" }, name := "" }

/-- RoleResource.Configure stores the provider data; nothing else on the
receiver is written. -/
def RoleResource.Configure (r : RoleResource) (pd : ProviderData) : RoleResource :=
  { r with providerData := pd }

/-- TenantResource.Configure stores the provider data only. -/
def TenantResource.Configure (r : TenantResource) (pd : ProviderData) : TenantResource :=
  { r with providerData := pd }

/-- TenantDataSource.Configure copies the four ProviderData fields. -/
def TenantDataSource.Configure (pd : ProviderData) : TenantDataSource :=
  { endpoint := pd.endpoint, username := pd.username, password := pd.password }

/-- Resource kinds defined in the package; AuthProxy.Resources registers
constructors out of these. -/
inductive RegisteredResource where
  | tenant
  | role
deriving DecidableEq, Repr

inductive RegisteredDataSource where
  | tenant
deriving DecidableEq, Repr

/-- AuthProxy.Resources (provider.go): returns []func(){NewTenantResource}. -/
def AuthProxy.Resources : List RegisteredResource :=
  [RegisteredResource.tenant]

/-- AuthProxy.DataSources (provider.go): returns []func(){NewTenantDataSource}. -/
def AuthProxy.DataSources : List RegisteredDataSource :=
  [RegisteredDataSource.tenant]

/-- TenantResource.Metadata: resp.TypeName = req.ProviderTypeName + "_tenant". -/
def TenantResource.MetadataTypeName (providerTypeName : String) : String :=
  providerTypeName ++ "_tenant"

/-- RoleResource.Metadata: resp.TypeName = req.ProviderTypeName + "_tenant"
(identical to the tenant resource in the source). -/
def RoleResource.MetadataTypeName (providerTypeName : String) : String :=
  providerTypeName ++ "_tenant"

/-- TenantDataSource.Metadata: resp.TypeName = req.ProviderTypeName + "_tenant". -/
def TenantDataSource.MetadataTypeName (providerTypeName : String) : String :=
  providerTypeName ++ "_tenant"

/-- createRequest: Name with json tag "tenant". -/
structure createRequest where
  Name : String

def createRequest.marshal (v : createRequest) : Json :=
  Json.obj [("tenant", Json.str v.Name)]

/-- createResponse: { id }. -/
structure createResponse where
  ID : String
deriving DecidableEq, Repr

/-- updateRequest: Name tag "tenant", NewName tag "new_tenant". -/
structure updateRequest where
  Name : String
  NewName : String

def updateRequest.marshal (v : updateRequest) : Json :=
  Json.obj [("tenant", Json.str v.Name), ("new_tenant", Json.str v.NewName)]

/-- updateResponse: { id }. -/
structure updateResponse where
  ID : String
deriving DecidableEq, Repr

/-- readResponse: { id, name }. -/
structure readResponse where
  ID : String
  Name : String
deriving DecidableEq, Repr

/-- deleteResponse: { id } (declared in the source; the Delete handlers
actually unmarshal into readResponse). -/
structure deleteResponse where
  ID : String
deriving DecidableEq, Repr

/-- createRoleRequest: { name, tenant, scopes }. -/
structure createRoleRequest where
  Name : String
  Tenant : String
  Scopes : List String

def createRoleRequest.marshal (v : createRoleRequest) : Json :=
  Json.obj
    [("name", Json.str v.Name), ("tenant", Json.str v.Tenant),
     ("scopes", Json.arr (v.Scopes.map Json.str))]

/-- createRoleResponse: { id }. -/
structure createRoleResponse where
  ID : String
deriving DecidableEq, Repr

/-- updateRoleRequest: { name, tenant, new_name, new_scopes } — declared in
the source but used by no handler; RoleResource.Update marshals the
tenant-shaped updateRequest instead. -/
structure updateRoleRequest where
  Name : String
  Tenant : String
  NewName : String
  NewScopes : String

def updateRoleRequest.marshal (v : updateRoleRequest) : Json :=
  Json.obj
    [("name", Json.str v.Name), ("tenant", Json.str v.Tenant),
     ("new_name", Json.str v.NewName), ("new_scopes", Json.str v.NewScopes)]

/-- updateRoleResponse: { id } (unused by the handlers). -/
structure updateRoleResponse where
  ID : String
deriving DecidableEq, Repr

/-- readRoleResponse: { id, name, tenant, scopes }. -/
structure readRoleResponse where
  ID : String
  Name : String
  Tenant : String
  Scopes : List String
deriving DecidableEq, Repr

/-- deleteRoleResponse: { id } (unused by the handlers). -/
structure deleteRoleResponse where
  ID : String
deriving DecidableEq, Repr

/-- tenantDataReadResponse: { id, name }. -/
structure tenantDataReadResponse where
  ID : String
  Name : String
deriving DecidableEq, Repr

/-- TenantResource.Create: POST {endpoint}/tenants with body
{"tenant": name}; on 200 decode createResponse and set data.ID; the
non-200 branch only logs the body via tflog.Error. -/
def TenantResource.Create (r : TenantResource) (data : TenantResourceModel)
    (env : Env createResponse) : OpResult TenantResourceModel :=
  let marshalled := createRequest.marshal { Name := data.Name }
  match env.buildErr with
  | some e =>
    { diagnostics :=
        [clientError ("Unable to create tenant, tenantdata: " ++
          r.providerData.endpoint ++ " got error: " ++ e)],
      state := none, sent := none }
  | none =>
    let request : HttpRequest :=
      { method := "POST", url := r.providerData.endpoint ++ "/tenants",
        body := some marshalled, basicAuth := none }
    let request := request.setBasicAuth r.providerData.username r.providerData.password
    match env.doResult with
    | Except.error e =>
      { diagnostics := [clientError ("Unable to create tenant, got error: " ++ e)],
        state := none, sent := some request }
    | Except.ok res =>
      if res.statusCode ≠ 200 then
        match res.readBody with
        | Except.error e =>
          { diagnostics :=
              [clientError
                ("Unable to handle non 200 status code on tenant creation, got error: " ++ e)],
            state := none, sent := some request }
        | Except.ok _ =>
          { diagnostics := [], state := none, sent := some request }
      else
        match res.readBody with
        | Except.error e =>
          { diagnostics := [clientError ("Unable to create tenant, got error: " ++ e)],
            state := none, sent := some request }
        | Except.ok body =>
          match env.decode body with
          | Except.error e =>
            { diagnostics := [clientError ("Unable to create tenant, got error: " ++ e)],
              state := none, sent := some request }
          | Except.ok cr =>
            { diagnostics := [], state := some { data with ID := cr.ID },
              sent := some request }

/-- TenantResource.Read: GET {endpoint}/tenants/{name}; on 200 decode
readResponse and set data.ID; on non-200 the body is only logged. -/
def TenantResource.Read (r : TenantResource) (data : TenantResourceModel)
    (env : Env readResponse) : OpResult TenantResourceModel :=
  match env.buildErr with
  | some e =>
    { diagnostics := [clientError ("Unable to read tenant, got error: " ++ e)],
      state := none, sent := none }
  | none =>
    let request : HttpRequest :=
      { method := "GET", url := r.providerData.endpoint ++ "/tenants/" ++ data.Name,
        body := none, basicAuth := none }
    let request := request.setBasicAuth r.providerData.username r.providerData.password
    match env.doResult with
    | Except.error e =>
      { diagnostics := [clientError ("Unable to read tenant, got error: " ++ e)],
        state := none, sent := some request }
    | Except.ok res =>
      if res.statusCode ≠ 200 then
        match res.readBody with
        | Except.error e =>
          { diagnostics :=
              [clientError
                ("Unable to handle non 200 status code on tenant read, got error: " ++ e)],
            state := none, sent := some request }
        | Except.ok _ =>
          { diagnostics := [], state := none, sent := some request }
      else
        match res.readBody with
        | Except.error e =>
          { diagnostics := [clientError ("Unable to read tenant, got error: " ++ e)],
            state := none, sent := some request }
        | Except.ok body =>
          match env.decode body with
          | Except.error e =>
            { diagnostics := [clientError ("Unable to read tenant, got error: " ++ e)],
              state := none, sent := some request }
          | Except.ok newTenant =>
            { diagnostics := [], state := some { data with ID := newTenant.ID },
              sent := some request }

/-- TenantResource.Update: PATCH {endpoint}/tenants with body
{"tenant": old.name, "new_tenant": plan.name}; on 200 decode
updateResponse, set data.ID and save the plan. -/
def TenantResource.Update (r : TenantResource) (old data : TenantResourceModel)
    (env : Env updateResponse) : OpResult TenantResourceModel :=
  let marshalled := updateRequest.marshal { Name := old.Name, NewName := data.Name }
  match env.buildErr with
  | some e =>
    { diagnostics := [clientError ("Unable to update tenant, got error: " ++ e)],
      state := none, sent := none }
  | none =>
    let request : HttpRequest :=
      { method := "PATCH", url := r.providerData.endpoint ++ "/tenants",
        body := some marshalled, basicAuth := none }
    let request := request.setBasicAuth r.providerData.username r.providerData.password
    match env.doResult with
    | Except.error e =>
      { diagnostics := [clientError ("Unable to update tenant, got error: " ++ e)],
        state := none, sent := some request }
    | Except.ok res =>
      if res.statusCode ≠ 200 then
        match res.readBody with
        | Except.error e =>
          { diagnostics :=
              [clientError
                ("Unable to handle non 200 status code on tenant update, got error: " ++ e)],
            state := none, sent := some request }
        | Except.ok _ =>
          { diagnostics := [], state := none, sent := some request }
      else
        match res.readBody with
        | Except.error e =>
          { diagnostics := [clientError ("Unable to update tenant, got error: " ++ e)],
            state := none, sent := some request }
        | Except.ok body =>
          match env.decode body with
          | Except.error e =>
            { diagnostics := [clientError ("Unable to update tenant, got error: " ++ e)],
              state := none, sent := some request }
          | Except.ok cr =>
            { diagnostics := [], state := some { data with ID := cr.ID },
              sent := some request }

/-- TenantResource.Delete: DELETE {endpoint}/tenants/{r.name} — addressed
by the receiver's never-assigned name field, not by data.Name; on 200
decode readResponse into the local descriptor; State.Set is never
called. -/
def TenantResource.Delete (r : TenantResource) (data : TenantResourceModel)
    (env : Env readResponse) : DeleteResult TenantResourceModel :=
  match env.buildErr with
  | some e =>
    { diagnostics := [clientError ("Unable to read tenant, got error: " ++ e)],
      data := data, sent := none }
  | none =>
    let request : HttpRequest :=
      { method := "DELETE", url := r.providerData.endpoint ++ "/tenants/" ++ r.name,
        body := none, basicAuth := none }
    let request := request.setBasicAuth r.providerData.username r.providerData.password
    match env.doResult with
    | Except.error e =>
      { diagnostics := [clientError ("Unable to delete tenant, got error: " ++ e)],
        data := data, sent := some request }
    | Except.ok res =>
      if res.statusCode ≠ 200 then
        match res.readBody with
        | Except.error e =>
          { diagnostics :=
              [clientError
                ("Unable to handle non 200 status code on tenant deletion, got error: " ++ e)],
            data := data, sent := some request }
        | Except.ok _ =>
          { diagnostics := [], data := data, sent := some request }
      else
        match res.readBody with
        | Except.error e =>
          { diagnostics := [clientError ("Unable to delete tenant, got error: " ++ e)],
            data := data, sent := some request }
        | Except.ok body =>
          match env.decode body with
          | Except.error e =>
            { diagnostics := [clientError ("Unable to delete tenant, got error: " ++ e)],
              data := data, sent := some request }
          | Except.ok newTenant =>
            { diagnostics := [],
              data := { data with ID := newTenant.ID, Name := newTenant.Name },
              sent := some request }

/-- RoleResource.Create: POST {endpoint}/roles with body
{"name", "tenant", "scopes"}; on 200 decode createRoleResponse and set
data.ID; the saved state keeps the planned name/tenant/scopes; the
non-200 branch only logs the body via tflog.Error. -/
def RoleResource.Create (r : RoleResource) (data : RoleResourceModel)
    (env : Env createRoleResponse) : OpResult RoleResourceModel :=
  let scopes := data.Scopes
  let marshalled :=
    createRoleRequest.marshal
      { Name := data.Name, Tenant := data.Tenant, Scopes := scopes }
  match env.buildErr with
  | some e =>
    { diagnostics := [clientError ("Unable to create role, got error: " ++ e)],
      state := none, sent := none }
  | none =>
    let request : HttpRequest :=
      { method := "POST", url := r.providerData.endpoint ++ "/roles",
        body := some marshalled, basicAuth := none }
    let request := request.setBasicAuth r.providerData.username r.providerData.password
    match env.doResult with
    | Except.error e =>
      { diagnostics := [clientError ("Unable to create role, got error: " ++ e)],
        state := none, sent := some request }
    | Except.ok res =>
      if res.statusCode ≠ 200 then
        match res.readBody with
        | Except.error e =>
          { diagnostics :=
              [clientError
                ("Unable to handle non 200 status code on role creation, got error: " ++ e)],
            state := none, sent := some request }
        | Except.ok _ =>
          { diagnostics := [], state := none, sent := some request }
      else
        match res.readBody with
        | Except.error e =>
          { diagnostics := [clientError ("Unable to create role, got error: " ++ e)],
            state := none, sent := some request }
        | Except.ok body =>
          match env.decode body with
          | Except.error e =>
            { diagnostics := [clientError ("Unable to create role, got error: " ++ e)],
              state := none, sent := some request }
          | Except.ok cr =>
            { diagnostics := [], state := some { data with ID := cr.ID },
              sent := some request }

/-- RoleResource.Read: GET {endpoint}/tenants/{tenant}/roles/{name}; on
200 decode readRoleResponse but copy only its id into the state — the
saved scopes come from the prior state (ElementsAs then ListValueFrom),
and name/tenant are left as in the prior state. -/
def RoleResource.Read (r : RoleResource) (data : RoleResourceModel)
    (env : Env readRoleResponse) : OpResult RoleResourceModel :=
  let scopes := data.Scopes
  match env.buildErr with
  | some e =>
    { diagnostics := [clientError ("Unable to read tenant, got error: " ++ e)],
      state := none, sent := none }
  | none =>
    let request : HttpRequest :=
      { method := "GET",
        url := r.providerData.endpoint ++ "/tenants/" ++ data.Tenant ++
          "/roles/" ++ data.Name,
        body := none, basicAuth := none }
    let request := request.setBasicAuth r.providerData.username r.providerData.password
    match env.doResult with
    | Except.error e =>
      { diagnostics := [clientError ("Unable to read role, got error: " ++ e)],
        state := none, sent := some request }
    | Except.ok res =>
      if res.statusCode ≠ 200 then
        match res.readBody with
        | Except.error e =>
          { diagnostics :=
              [clientError
                ("Unable to handle non 200 status code on role read, got error: " ++ e)],
            state := none, sent := some request }
        | Except.ok _ =>
          { diagnostics := [], state := none, sent := some request }
      else
        match res.readBody with
        | Except.error e =>
          { diagnostics := [clientError ("Unable to read role, got error: " ++ e)],
            state := none, sent := some request }
        | Except.ok body =>
          match env.decode body with
          | Except.error e =>
            { diagnostics := [clientError ("Unable to read tenant, got error: " ++ e)],
              state := none, sent := some request }
          | Except.ok newRole =>
            { diagnostics := [],
              state := some { data with ID := newRole.ID, Scopes := scopes },
              sent := some request }

/-- RoleResource.Update: marshals the tenant-shaped updateRequest
{"tenant": old.name, "new_tenant": plan.name} and sends it to
PATCH {endpoint}/tenants — the role's tenant and scopes are not sent and
no role-specific endpoint is used; on 200 decode updateResponse, set
data.ID and save the plan. -/
def RoleResource.Update (r : RoleResource) (old data : RoleResourceModel)
    (env : Env updateResponse) : OpResult RoleResourceModel :=
  let marshalled := updateRequest.marshal { Name := old.Name, NewName := data.Name }
  match env.buildErr with
  | some e =>
    { diagnostics := [clientError ("Unable to update tenant, got error: " ++ e)],
      state := none, sent := none }
  | none =>
    let request : HttpRequest :=
      { method := "PATCH", url := r.providerData.endpoint ++ "/tenants",
        body := some marshalled, basicAuth := none }
    let request := request.setBasicAuth r.providerData.username r.providerData.password
    match env.doResult with
    | Except.error e =>
      { diagnostics := [clientError ("Unable to update tenant, got error: " ++ e)],
        state := none, sent := some request }
    | Except.ok res =>
      if res.statusCode ≠ 200 then
        match res.readBody with
        | Except.error e =>
          { diagnostics :=
              [clientError
                ("Unable to handle non 200 status code on tenant update, got error: " ++ e)],
            state := none, sent := some request }
        | Except.ok _ =>
          { diagnostics := [], state := none, sent := some request }
      else
        match res.readBody with
        | Except.error e =>
          { diagnostics := [clientError ("Unable to update tenant, got error: " ++ e)],
            state := none, sent := some request }
        | Except.ok body =>
          match env.decode body with
          | Except.error e =>
            { diagnostics := [clientError ("Unable to update tenant, got error: " ++ e)],
              state := none, sent := some request }
          | Except.ok cr =>
            { diagnostics := [], state := some { data with ID := cr.ID },
              sent := some request }

/-- RoleResource.Delete: DELETE {endpoint}/tenants/{r.name} — addressed by
the receiver's never-assigned name field, not by the role's tenant (or
name); on 200 decode readResponse into the local descriptor. -/
def RoleResource.Delete (r : RoleResource) (data : RoleResourceModel)
    (env : Env readResponse) : DeleteResult RoleResourceModel :=
  match env.buildErr with
  | some e =>
    { diagnostics := [clientError ("Unable to read tenant, got error: " ++ e)],
      data := data, sent := none }
  | none =>
    let request : HttpRequest :=
      { method := "DELETE", url := r.providerData.endpoint ++ "/tenants/" ++ r.name,
        body := none, basicAuth := none }
    let request := request.setBasicAuth r.providerData.username r.providerData.password
    match env.doResult with
    | Except.error e =>
      { diagnostics := [clientError ("Unable to delete tenant, got error: " ++ e)],
        data := data, sent := some request }
    | Except.ok res =>
      if res.statusCode ≠ 200 then
        match res.readBody with
        | Except.error e =>
          { diagnostics :=
              [clientError
                ("Unable to handle non 200 status code on tenant deletion, got error: " ++ e)],
            data := data, sent := some request }
        | Except.ok _ =>
          { diagnostics := [], data := data, sent := some request }
      else
        match res.readBody with
        | Except.error e =>
          { diagnostics := [clientError ("Unable to delete tenant, got error: " ++ e)],
            data := data, sent := some request }
        | Except.ok body =>
          match env.decode body with
          | Except.error e =>
            { diagnostics := [clientError ("Unable to delete tenant, got error: " ++ e)],
              data := data, sent := some request }
          | Except.ok newTenant =>
            { diagnostics := [],
              data := { data with ID := newTenant.ID, Name := newTenant.Name },
              sent := some request }

/-- TenantDataSource.Read: GET {endpoint}/tenants/{name}; on 200 decode
tenantDataReadResponse and set data.ID; the non-200 branch only logs. -/
def TenantDataSource.Read (d : TenantDataSource) (data : TenantDataSourceModel)
    (env : Env tenantDataReadResponse) : OpResult TenantDataSourceModel :=
  match env.buildErr with
  | some e =>
    { diagnostics := [clientError ("Unable to read tenant, got error: " ++ e)],
      state := none, sent := none }
  | none =>
    let request : HttpRequest :=
      { method := "GET", url := d.endpoint ++ "/tenants/" ++ data.Name,
        body := none, basicAuth := none }
    let request := request.setBasicAuth d.username d.password
    match env.doResult with
    | Except.error e =>
      { diagnostics := [clientError ("Unable to read tenant, got error: " ++ e)],
        state := none, sent := some request }
    | Except.ok res =>
      if res.statusCode ≠ 200 then
        match res.readBody with
        | Except.error e =>
          { diagnostics :=
              [clientError
                ("Unable to handle non 200 status code on tenant read, got error: " ++ e)],
            state := none, sent := some request }
        | Except.ok _ =>
          { diagnostics := [], state := none, sent := some request }
      else
        match res.readBody with
        | Except.error e =>
          { diagnostics := [clientError ("Unable to read tenant, got error: " ++ e)],
            state := none, sent := some request }
        | Except.ok body =>
          match env.decode body with
          | Except.error e =>
            { diagnostics := [clientError ("Unable to read tenant, got error: " ++ e)],
              state := none, sent := some request }
          | Except.ok newTenant =>
            { diagnostics := [], state := some { data with ID := newTenant.ID },
              sent := some request }

/-- Concrete provider configuration used by the concrete evaluations. -/
def pdX : ProviderData :=
  { endpoint := "http://api", username := "u", password := "p" }

def tenantRX : TenantResource :=
  TenantResource.Configure NewTenantResource pdX

def roleRX : RoleResource :=
  RoleResource.Configure NewRoleResource pdX

def dsX : TenantDataSource :=
  TenantDataSource.Configure pdX

def tenantPlanX : TenantResourceModel :=
  { Name := "acme", ID := "" }

def tenantStateX : TenantResourceModel :=
  { Name := "acme", ID := "id0" }

def rolePlanX : RoleResourceModel :=
  { ID := "", Name := "writer", Tenant := "acme", Scopes := ["read", "write"] }

def roleOldX : RoleResourceModel :=
  { ID := "id7", Name := "a", Tenant := "t", Scopes := ["read"] }

def rolePlan2X : RoleResourceModel :=
  { ID := "id7", Name := "b", Tenant := "t", Scopes := ["read", "write"] }

def roleStateX : RoleResourceModel :=
  { ID := "id7", Name := "admin", Tenant := "acme", Scopes := ["read"] }

def dsModelX : TenantDataSourceModel :=
  { ID := "", Name := "acme" }

/-- A completed exchange rejected with status 500 and a readable body. -/
def envCreate500 : Env createResponse :=
  { buildErr := none,
    doResult := Except.ok { statusCode := 500, readBody := Except.ok ("denied") },
    decode := fun _ => Except.error ("unused") }

/-- A successful tenant-create exchange whose body decodes to id "id42". -/
def envCreateOk : Env createResponse :=
  { buildErr := none,
    doResult := Except.ok { statusCode := 200, readBody := Except.ok ("{}") },
    decode := fun _ => Except.ok { ID := "id42" } }

/-- A transport failure during a tenant read. -/
def envReadTransportErr : Env readResponse :=
  { buildErr := none,
    doResult := Except.error ("connection refused"),
    decode := fun _ => Except.error ("unused") }

/-- A successful role-create exchange whose body decodes to id "id9". -/
def envRoleCreateOk : Env createRoleResponse :=
  { buildErr := none,
    doResult := Except.ok { statusCode := 200, readBody := Except.ok ("{}") },
    decode := fun _ => Except.ok { ID := "id9" } }

/-- A successful role-read exchange whose body decodes with a name, tenant
and scopes all different from the stored state. -/
def envRoleReadOk : Env readRoleResponse :=
  { buildErr := none,
    doResult := Except.ok { statusCode := 200, readBody := Except.ok ("{}") },
    decode := fun _ =>
      Except.ok { ID := "id9", Name := "remoteName", Tenant := "remoteTenant",
                  Scopes := ["remoteScope"] } }

/-- A role-read exchange rejected with status 403 and a readable body. -/
def envRoleRead403 : Env readRoleResponse :=
  { buildErr := none,
    doResult := Except.ok { statusCode := 403, readBody := Except.ok ("forbidden") },
    decode := fun _ => Except.error ("unused") }

/-- A successful update exchange whose body decodes to id "id7". -/
def envUpdateOk : Env updateResponse :=
  { buildErr := none,
    doResult := Except.ok { statusCode := 200, readBody := Except.ok ("{}") },
    decode := fun _ => Except.ok { ID := "id7" } }

/-- A successful delete exchange (readResponse schema). -/
def envDeleteOk : Env readResponse :=
  { buildErr := none,
    doResult := Except.ok { statusCode := 200, readBody := Except.ok ("{}") },
    decode := fun _ => Except.ok { ID := "id7", Name := "acme" } }

/-- An alternate role-read decoder, used to exhibit decoder-independence
of rejected exchanges at a concrete input. -/
def decodeRoleZ : String → Except String readRoleResponse :=
  fun _ => Except.ok { ID := "z", Name := "z", Tenant := "z", Scopes := [] }

/-- The request TenantResource.Create dispatches for plan name "acme"
under the concrete configuration pdX. -/
def sentCreateReqX : HttpRequest :=
  { method := "POST", url := "http://api/tenants",
    body := some (Json.obj [("tenant", Json.str ("acme"))]),
    basicAuth := some ("u", "p") }

/-- The state saved by a successful Role Create of rolePlanX when the
response decodes to id "id9". -/
def roleSt1X : RoleResourceModel :=
  { ID := "id9", Name := "writer", Tenant := "acme", Scopes := ["read", "write"] }

theorem tenantCreate_cases (r : TenantResource) (data : TenantResourceModel)
    (env : Env createResponse) :
    ((TenantResource.Create r data env).diagnostics = [] ↔
       env.outcome = Outcome.rejectedLogged ∨ (env.outcome).isSuccess = true) ∧
    ((env.outcome).isSuccess = false → (TenantResource.Create r data env).state = none) ∧
    (∀ req, (TenantResource.Create r data env).sent = some req →
       req.basicAuth = some (r.providerData.username, r.providerData.password)) ∧
    (∀ res, env.doResult = Except.ok res → res.statusCode ≠ 200 →
       (TenantResource.Create r data env).state = none ∧
       ∀ d2, TenantResource.Create r data { env with decode := d2 } =
         TenantResource.Create r data env) ∧
    ((TenantResource.Create r data env).state.isSome = true →
       ∃ res, env.doResult = Except.ok res ∧ res.statusCode = 200) ∧
    (env.buildErr = none → (TenantResource.Create r data env).sent =
       some { method := "POST", url := r.providerData.endpoint ++ "/tenants",
              body := some (Json.obj [("tenant", Json.str data.Name)]),
              basicAuth := some (r.providerData.username, r.providerData.password) }) ∧
    (∀ a, env.outcome = Outcome.success a →
       (TenantResource.Create r data env).diagnostics = [] ∧
       (TenantResource.Create r data env).state = some { data with ID := a.ID }) := by
  obtain ⟨be, dr, dec⟩ := env
  cases be with
  | some e =>
    simp [TenantResource.Create, Env.outcome, Outcome.isSuccess, HttpRequest.setBasicAuth,
      createRequest.marshal]
  | none =>
    cases dr with
    | error e =>
      simp [TenantResource.Create, Env.outcome, Outcome.isSuccess, HttpRequest.setBasicAuth,
      createRequest.marshal]
    | ok res =>
      obtain ⟨sc, rb⟩ := res
      by_cases hsc : sc = 200
      · subst hsc
        cases rb with
        | error e =>
          simp [TenantResource.Create, Env.outcome, Outcome.isSuccess,
            HttpRequest.setBasicAuth, createRequest.marshal]
        | ok b =>
          cases hdec : dec b with
          | error e =>
            simp [TenantResource.Create, Env.outcome, Outcome.isSuccess,
              HttpRequest.setBasicAuth, createRequest.marshal, hdec]
          | ok a =>
            simp [TenantResource.Create, Env.outcome, Outcome.isSuccess,
              HttpRequest.setBasicAuth, createRequest.marshal, hdec]
      · cases rb with
        | error e =>
          simp [TenantResource.Create, Env.outcome, Outcome.isSuccess,
            HttpRequest.setBasicAuth, createRequest.marshal, hsc]
        | ok b =>
          simp [TenantResource.Create, Env.outcome, Outcome.isSuccess,
            HttpRequest.setBasicAuth, createRequest.marshal, hsc]

theorem tenantRead_cases (r : TenantResource) (data : TenantResourceModel)
    (env : Env readResponse) :
    ((TenantResource.Read r data env).diagnostics = [] ↔
       env.outcome = Outcome.rejectedLogged ∨ (env.outcome).isSuccess = true) ∧
    ((env.outcome).isSuccess = false → (TenantResource.Read r data env).state = none) ∧
    (∀ req, (TenantResource.Read r data env).sent = some req →
       req.basicAuth = some (r.providerData.username, r.providerData.password)) ∧
    (∀ res, env.doResult = Except.ok res → res.statusCode ≠ 200 →
       (TenantResource.Read r data env).state = none ∧
       ∀ d2, TenantResource.Read r data { env with decode := d2 } =
         TenantResource.Read r data env) ∧
    ((TenantResource.Read r data env).state.isSome = true →
       ∃ res, env.doResult = Except.ok res ∧ res.statusCode = 200) ∧
    (∀ a, env.outcome = Outcome.success a →
       (TenantResource.Read r data env).diagnostics = [] ∧
       (TenantResource.Read r data env).state = some { data with ID := a.ID }) := by
  obtain ⟨be, dr, dec⟩ := env
  cases be with
  | some e =>
    simp [TenantResource.Read, Env.outcome, Outcome.isSuccess, HttpRequest.setBasicAuth]
  | none =>
    cases dr with
    | error e =>
      simp [TenantResource.Read, Env.outcome, Outcome.isSuccess, HttpRequest.setBasicAuth]
    | ok res =>
      obtain ⟨sc, rb⟩ := res
      by_cases hsc : sc = 200
      · subst hsc
        cases rb with
        | error e =>
          simp [TenantResource.Read, Env.outcome, Outcome.isSuccess,
            HttpRequest.setBasicAuth]
        | ok b =>
          cases hdec : dec b with
          | error e =>
            simp [TenantResource.Read, Env.outcome, Outcome.isSuccess,
              HttpRequest.setBasicAuth, hdec]
          | ok a =>
            simp [TenantResource.Read, Env.outcome, Outcome.isSuccess,
              HttpRequest.setBasicAuth, hdec]
      · cases rb with
        | error e =>
          simp [TenantResource.Read, Env.outcome, Outcome.isSuccess,
            HttpRequest.setBasicAuth, hsc]
        | ok b =>
          simp [TenantResource.Read, Env.outcome, Outcome.isSuccess,
            HttpRequest.setBasicAuth, hsc]

theorem tenantUpdate_cases (r : TenantResource) (old data : TenantResourceModel)
    (env : Env updateResponse) :
    ((TenantResource.Update r old data env).diagnostics = [] ↔
       env.outcome = Outcome.rejectedLogged ∨ (env.outcome).isSuccess = true) ∧
    ((env.outcome).isSuccess = false → (TenantResource.Update r old data env).state = none) ∧
    (∀ req, (TenantResource.Update r old data env).sent = some req →
       req.basicAuth = some (r.providerData.username, r.providerData.password)) ∧
    (∀ res, env.doResult = Except.ok res → res.statusCode ≠ 200 →
       (TenantResource.Update r old data env).state = none ∧
       ∀ d2, TenantResource.Update r old data { env with decode := d2 } =
         TenantResource.Update r old data env) ∧
    ((TenantResource.Update r old data env).state.isSome = true →
       ∃ res, env.doResult = Except.ok res ∧ res.statusCode = 200) ∧
    (∀ a, env.outcome = Outcome.success a →
       (TenantResource.Update r old data env).diagnostics = [] ∧
       (TenantResource.Update r old data env).state = some { data with ID := a.ID }) := by
  obtain ⟨be, dr, dec⟩ := env
  cases be with
  | some e =>
    simp [TenantResource.Update, Env.outcome, Outcome.isSuccess, HttpRequest.setBasicAuth,
      updateRequest.marshal]
  | none =>
    cases dr with
    | error e =>
      simp [TenantResource.Update, Env.outcome, Outcome.isSuccess, HttpRequest.setBasicAuth,
        updateRequest.marshal]
    | ok res =>
      obtain ⟨sc, rb⟩ := res
      by_cases hsc : sc = 200
      · subst hsc
        cases rb with
        | error e =>
          simp [TenantResource.Update, Env.outcome, Outcome.isSuccess,
            HttpRequest.setBasicAuth, updateRequest.marshal]
        | ok b =>
          cases hdec : dec b with
          | error e =>
            simp [TenantResource.Update, Env.outcome, Outcome.isSuccess,
              HttpRequest.setBasicAuth, updateRequest.marshal, hdec]
          | ok a =>
            simp [TenantResource.Update, Env.outcome, Outcome.isSuccess,
              HttpRequest.setBasicAuth, updateRequest.marshal, hdec]
      · cases rb with
        | error e =>
          simp [TenantResource.Update, Env.outcome, Outcome.isSuccess,
            HttpRequest.setBasicAuth, updateRequest.marshal, hsc]
        | ok b =>
          simp [TenantResource.Update, Env.outcome, Outcome.isSuccess,
            HttpRequest.setBasicAuth, updateRequest.marshal, hsc]

theorem tenantDelete_cases (r : TenantResource) (data : TenantResourceModel)
    (env : Env readResponse) :
    ((TenantResource.Delete r data env).diagnostics = [] ↔
       env.outcome = Outcome.rejectedLogged ∨ (env.outcome).isSuccess = true) ∧
    ((env.outcome).isSuccess = false → (TenantResource.Delete r data env).data = data) ∧
    (∀ req, (TenantResource.Delete r data env).sent = some req →
       req.basicAuth = some (r.providerData.username, r.providerData.password)) ∧
    (∀ res, env.doResult = Except.ok res → res.statusCode ≠ 200 →
       (TenantResource.Delete r data env).data = data ∧
       ∀ d2, TenantResource.Delete r data { env with decode := d2 } =
         TenantResource.Delete r data env) ∧
    (∀ a, env.outcome = Outcome.success a →
       (TenantResource.Delete r data env).diagnostics = [] ∧
       (TenantResource.Delete r data env).data =
         { data with ID := a.ID, Name := a.Name }) := by
  obtain ⟨be, dr, dec⟩ := env
  cases be with
  | some e =>
    simp [TenantResource.Delete, Env.outcome, Outcome.isSuccess, HttpRequest.setBasicAuth]
  | none =>
    cases dr with
    | error e =>
      simp [TenantResource.Delete, Env.outcome, Outcome.isSuccess, HttpRequest.setBasicAuth]
    | ok res =>
      obtain ⟨sc, rb⟩ := res
      by_cases hsc : sc = 200
      · subst hsc
        cases rb with
        | error e =>
          simp [TenantResource.Delete, Env.outcome, Outcome.isSuccess,
            HttpRequest.setBasicAuth]
        | ok b =>
          cases hdec : dec b with
          | error e =>
            simp [TenantResource.Delete, Env.outcome, Outcome.isSuccess,
              HttpRequest.setBasicAuth, hdec]
          | ok a =>
            simp [TenantResource.Delete, Env.outcome, Outcome.isSuccess,
              HttpRequest.setBasicAuth, hdec]
      · cases rb with
        | error e =>
          simp [TenantResource.Delete, Env.outcome, Outcome.isSuccess,
            HttpRequest.setBasicAuth, hsc]
        | ok b =>
          simp [TenantResource.Delete, Env.outcome, Outcome.isSuccess,
            HttpRequest.setBasicAuth, hsc]

theorem roleCreate_cases (r : RoleResource) (data : RoleResourceModel)
    (env : Env createRoleResponse) :
    ((RoleResource.Create r data env).diagnostics = [] ↔
       env.outcome = Outcome.rejectedLogged ∨ (env.outcome).isSuccess = true) ∧
    ((env.outcome).isSuccess = false → (RoleResource.Create r data env).state = none) ∧
    (∀ req, (RoleResource.Create r data env).sent = some req →
       req.basicAuth = some (r.providerData.username, r.providerData.password)) ∧
    (∀ res, env.doResult = Except.ok res → res.statusCode ≠ 200 →
       (RoleResource.Create r data env).state = none ∧
       ∀ d2, RoleResource.Create r data { env with decode := d2 } =
         RoleResource.Create r data env) ∧
    ((RoleResource.Create r data env).state.isSome = true →
       ∃ res, env.doResult = Except.ok res ∧ res.statusCode = 200) ∧
    (env.buildErr = none → (RoleResource.Create r data env).sent =
       some { method := "POST", url := r.providerData.endpoint ++ "/roles",
              body := some (Json.obj
                [("name", Json.str data.Name), ("tenant", Json.str data.Tenant),
                 ("scopes", Json.arr (data.Scopes.map Json.str))]),
              basicAuth := some (r.providerData.username, r.providerData.password) }) ∧
    (∀ a, env.outcome = Outcome.success a →
       (RoleResource.Create r data env).diagnostics = [] ∧
       (RoleResource.Create r data env).state = some { data with ID := a.ID }) ∧
    (∀ st, (RoleResource.Create r data env).state = some st →
       st.Name = data.Name ∧ st.Tenant = data.Tenant ∧ st.Scopes = data.Scopes) := by
  obtain ⟨be, dr, dec⟩ := env
  cases be with
  | some e =>
    simp [RoleResource.Create, Env.outcome, Outcome.isSuccess, HttpRequest.setBasicAuth,
      createRoleRequest.marshal]
  | none =>
    cases dr with
    | error e =>
      simp [RoleResource.Create, Env.outcome, Outcome.isSuccess, HttpRequest.setBasicAuth,
        createRoleRequest.marshal]
    | ok res =>
      obtain ⟨sc, rb⟩ := res
      by_cases hsc : sc = 200
      · subst hsc
        cases rb with
        | error e =>
          simp [RoleResource.Create, Env.outcome, Outcome.isSuccess,
            HttpRequest.setBasicAuth, createRoleRequest.marshal]
        | ok b =>
          cases hdec : dec b with
          | error e =>
            simp [RoleResource.Create, Env.outcome, Outcome.isSuccess,
              HttpRequest.setBasicAuth, createRoleRequest.marshal, hdec]
          | ok a =>
            simp_all [RoleResource.Create, Env.outcome, Outcome.isSuccess,
              HttpRequest.setBasicAuth, createRoleRequest.marshal]
      · cases rb with
        | error e =>
          simp [RoleResource.Create, Env.outcome, Outcome.isSuccess,
            HttpRequest.setBasicAuth, createRoleRequest.marshal, hsc]
        | ok b =>
          simp [RoleResource.Create, Env.outcome, Outcome.isSuccess,
            HttpRequest.setBasicAuth, createRoleRequest.marshal, hsc]

theorem roleRead_cases (r : RoleResource) (data : RoleResourceModel)
    (env : Env readRoleResponse) :
    ((RoleResource.Read r data env).diagnostics = [] ↔
       env.outcome = Outcome.rejectedLogged ∨ (env.outcome).isSuccess = true) ∧
    ((env.outcome).isSuccess = false → (RoleResource.Read r data env).state = none) ∧
    (∀ req, (RoleResource.Read r data env).sent = some req →
       req.basicAuth = some (r.providerData.username, r.providerData.password)) ∧
    (∀ res, env.doResult = Except.ok res → res.statusCode ≠ 200 →
       (RoleResource.Read r data env).state = none ∧
       ∀ d2, RoleResource.Read r data { env with decode := d2 } =
         RoleResource.Read r data env) ∧
    ((RoleResource.Read r data env).state.isSome = true →
       ∃ res, env.doResult = Except.ok res ∧ res.statusCode = 200) ∧
    (∀ a, env.outcome = Outcome.success a →
       (RoleResource.Read r data env).diagnostics = [] ∧
       (RoleResource.Read r data env).state =
         some { ID := a.ID, Name := data.Name, Tenant := data.Tenant,
                Scopes := data.Scopes }) ∧
    (∀ st, (RoleResource.Read r data env).state = some st →
       st.Name = data.Name ∧ st.Tenant = data.Tenant ∧ st.Scopes = data.Scopes) := by
  obtain ⟨be, dr, dec⟩ := env
  cases be with
  | some e =>
    simp [RoleResource.Read, Env.outcome, Outcome.isSuccess, HttpRequest.setBasicAuth]
  | none =>
    cases dr with
    | error e =>
      simp [RoleResource.Read, Env.outcome, Outcome.isSuccess, HttpRequest.setBasicAuth]
    | ok res =>
      obtain ⟨sc, rb⟩ := res
      by_cases hsc : sc = 200
      · subst hsc
        cases rb with
        | error e =>
          simp [RoleResource.Read, Env.outcome, Outcome.isSuccess,
            HttpRequest.setBasicAuth]
        | ok b =>
          cases hdec : dec b with
          | error e =>
            simp [RoleResource.Read, Env.outcome, Outcome.isSuccess,
              HttpRequest.setBasicAuth, hdec]
          | ok a =>
            simp_all [RoleResource.Read, Env.outcome, Outcome.isSuccess,
              HttpRequest.setBasicAuth]
      · cases rb with
        | error e =>
          simp [RoleResource.Read, Env.outcome, Outcome.isSuccess,
            HttpRequest.setBasicAuth, hsc]
        | ok b =>
          simp [RoleResource.Read, Env.outcome, Outcome.isSuccess,
            HttpRequest.setBasicAuth, hsc]

theorem roleUpdate_cases (r : RoleResource) (old data : RoleResourceModel)
    (env : Env updateResponse) :
    ((RoleResource.Update r old data env).diagnostics = [] ↔
       env.outcome = Outcome.rejectedLogged ∨ (env.outcome).isSuccess = true) ∧
    ((env.outcome).isSuccess = false → (RoleResource.Update r old data env).state = none) ∧
    (∀ req, (RoleResource.Update r old data env).sent = some req →
       req.basicAuth = some (r.providerData.username, r.providerData.password)) ∧
    (∀ res, env.doResult = Except.ok res → res.statusCode ≠ 200 →
       (RoleResource.Update r old data env).state = none ∧
       ∀ d2, RoleResource.Update r old data { env with decode := d2 } =
         RoleResource.Update r old data env) ∧
    ((RoleResource.Update r old data env).state.isSome = true →
       ∃ res, env.doResult = Except.ok res ∧ res.statusCode = 200) ∧
    (env.buildErr = none → (RoleResource.Update r old data env).sent =
       some { method := "PATCH", url := r.providerData.endpoint ++ "/tenants",
              body := some (Json.obj
                [("tenant", Json.str old.Name), ("new_tenant", Json.str data.Name)]),
              basicAuth := some (r.providerData.username, r.providerData.password) }) ∧
    (∀ a, env.outcome = Outcome.success a →
       (RoleResource.Update r old data env).diagnostics = [] ∧
       (RoleResource.Update r old data env).state = some { data with ID := a.ID }) := by
  obtain ⟨be, dr, dec⟩ := env
  cases be with
  | some e =>
    simp [RoleResource.Update, Env.outcome, Outcome.isSuccess, HttpRequest.setBasicAuth,
      updateRequest.marshal]
  | none =>
    cases dr with
    | error e =>
      simp [RoleResource.Update, Env.outcome, Outcome.isSuccess, HttpRequest.setBasicAuth,
        updateRequest.marshal]
    | ok res =>
      obtain ⟨sc, rb⟩ := res
      by_cases hsc : sc = 200
      · subst hsc
        cases rb with
        | error e =>
          simp [RoleResource.Update, Env.outcome, Outcome.isSuccess,
            HttpRequest.setBasicAuth, updateRequest.marshal]
        | ok b =>
          cases hdec : dec b with
          | error e =>
            simp [RoleResource.Update, Env.outcome, Outcome.isSuccess,
              HttpRequest.setBasicAuth, updateRequest.marshal, hdec]
          | ok a =>
            simp [RoleResource.Update, Env.outcome, Outcome.isSuccess,
              HttpRequest.setBasicAuth, updateRequest.marshal, hdec]
      · cases rb with
        | error e =>
          simp [RoleResource.Update, Env.outcome, Outcome.isSuccess,
            HttpRequest.setBasicAuth, updateRequest.marshal, hsc]
        | ok b =>
          simp [RoleResource.Update, Env.outcome, Outcome.isSuccess,
            HttpRequest.setBasicAuth, updateRequest.marshal, hsc]

theorem roleDelete_cases (r : RoleResource) (data : RoleResourceModel)
    (env : Env readResponse) :
    ((RoleResource.Delete r data env).diagnostics = [] ↔
       env.outcome = Outcome.rejectedLogged ∨ (env.outcome).isSuccess = true) ∧
    ((env.outcome).isSuccess = false → (RoleResource.Delete r data env).data = data) ∧
    (∀ req, (RoleResource.Delete r data env).sent = some req →
       req.basicAuth = some (r.providerData.username, r.providerData.password)) ∧
    (∀ res, env.doResult = Except.ok res → res.statusCode ≠ 200 →
       (RoleResource.Delete r data env).data = data ∧
       ∀ d2, RoleResource.Delete r data { env with decode := d2 } =
         RoleResource.Delete r data env) ∧
    (env.buildErr = none → (RoleResource.Delete r data env).sent =
       some { method := "DELETE",
              url := r.providerData.endpoint ++ "/tenants/" ++ r.name,
              body := none,
              basicAuth := some (r.providerData.username, r.providerData.password) }) ∧
    (∀ a, env.outcome = Outcome.success a →
       (RoleResource.Delete r data env).diagnostics = [] ∧
       (RoleResource.Delete r data env).data =
         { data with ID := a.ID, Name := a.Name }) := by
  obtain ⟨be, dr, dec⟩ := env
  cases be with
  | some e =>
    simp [RoleResource.Delete, Env.outcome, Outcome.isSuccess, HttpRequest.setBasicAuth]
  | none =>
    cases dr with
    | error e =>
      simp [RoleResource.Delete, Env.outcome, Outcome.isSuccess, HttpRequest.setBasicAuth]
    | ok res =>
      obtain ⟨sc, rb⟩ := res
      by_cases hsc : sc = 200
      · subst hsc
        cases rb with
        | error e =>
          simp [RoleResource.Delete, Env.outcome, Outcome.isSuccess,
            HttpRequest.setBasicAuth]
        | ok b =>
          cases hdec : dec b with
          | error e =>
            simp [RoleResource.Delete, Env.outcome, Outcome.isSuccess,
              HttpRequest.setBasicAuth, hdec]
          | ok a =>
            simp [RoleResource.Delete, Env.outcome, Outcome.isSuccess,
              HttpRequest.setBasicAuth, hdec]
      · cases rb with
        | error e =>
          simp [RoleResource.Delete, Env.outcome, Outcome.isSuccess,
            HttpRequest.setBasicAuth, hsc]
        | ok b =>
          simp [RoleResource.Delete, Env.outcome, Outcome.isSuccess,
            HttpRequest.setBasicAuth, hsc]

theorem dataSourceRead_cases (d : TenantDataSource) (data : TenantDataSourceModel)
    (env : Env tenantDataReadResponse) :
    ((TenantDataSource.Read d data env).diagnostics = [] ↔
       env.outcome = Outcome.rejectedLogged ∨ (env.outcome).isSuccess = true) ∧
    ((env.outcome).isSuccess = false → (TenantDataSource.Read d data env).state = none) ∧
    (∀ req, (TenantDataSource.Read d data env).sent = some req →
       req.basicAuth = some (d.username, d.password)) ∧
    (∀ res, env.doResult = Except.ok res → res.statusCode ≠ 200 →
       (TenantDataSource.Read d data env).state = none ∧
       ∀ d2, TenantDataSource.Read d data { env with decode := d2 } =
         TenantDataSource.Read d data env) ∧
    ((TenantDataSource.Read d data env).state.isSome = true →
       ∃ res, env.doResult = Except.ok res ∧ res.statusCode = 200) ∧
    (∀ a, env.outcome = Outcome.success a →
       (TenantDataSource.Read d data env).diagnostics = [] ∧
       (TenantDataSource.Read d data env).state = some { data with ID := a.ID }) := by
  obtain ⟨be, dr, dec⟩ := env
  cases be with
  | some e =>
    simp [TenantDataSource.Read, Env.outcome, Outcome.isSuccess, HttpRequest.setBasicAuth]
  | none =>
    cases dr with
    | error e =>
      simp [TenantDataSource.Read, Env.outcome, Outcome.isSuccess, HttpRequest.setBasicAuth]
    | ok res =>
      obtain ⟨sc, rb⟩ := res
      by_cases hsc : sc = 200
      · subst hsc
        cases rb with
        | error e =>
          simp [TenantDataSource.Read, Env.outcome, Outcome.isSuccess,
            HttpRequest.setBasicAuth]
        | ok b =>
          cases hdec : dec b with
          | error e =>
            simp [TenantDataSource.Read, Env.outcome, Outcome.isSuccess,
              HttpRequest.setBasicAuth, hdec]
          | ok a =>
            simp [TenantDataSource.Read, Env.outcome, Outcome.isSuccess,
              HttpRequest.setBasicAuth, hdec]
      · cases rb with
        | error e =>
          simp [TenantDataSource.Read, Env.outcome, Outcome.isSuccess,
            HttpRequest.setBasicAuth, hsc]
        | ok b =>
          simp [TenantDataSource.Read, Env.outcome, Outcome.isSuccess,
            HttpRequest.setBasicAuth, hsc]

/-- C10: the provider registers exactly the Tenant resource and exactly the
Tenant data source; the Role resource is never registered, and its
Metadata reports the same type-name suffix "_tenant" as the Tenant
resource rather than a role-specific name. -/
theorem C10_registration :
    AuthProxy.Resources = [RegisteredResource.tenant] ∧
    RegisteredResource.role ∉ AuthProxy.Resources ∧
    AuthProxy.DataSources = [RegisteredDataSource.tenant] ∧
    ∀ ptn : String, RoleResource.MetadataTypeName ptn = ptn ++ "_tenant" ∧
      RoleResource.MetadataTypeName ptn = TenantResource.MetadataTypeName ptn :=
  ⟨rfl, by decide, rfl, fun ptn => ⟨rfl, rfl⟩⟩

/-- C2: evaluated at a concrete role rename (old name "a", planned name
"b", tenant "t", scopes present on both states), RoleResource.Update
dispatches the Tenant wire payload {"tenant": "a", "new_tenant": "b"} to
PATCH {endpoint}/tenants — no role-specific endpoint or payload is used
and the role's tenant and scopes are not sent. -/
theorem C2_update_sends_tenant_payload :
    (RoleResource.Update roleRX roleOldX rolePlan2X envUpdateOk).sent =
      some { method := "PATCH", url := "http://api/tenants",
             body := some (Json.obj
               [("tenant", Json.str ("a")), ("new_tenant", Json.str ("b"))]),
             basicAuth := some ("u", "p") } := rfl

/-- C3: evaluated at a concrete role whose tenant is "acme",
RoleResource.Delete dispatches DELETE to {endpoint}/tenants/ followed by
the receiver's never-populated name field (the empty string) — the
role's tenant does not appear in the path. -/
theorem C3_delete_path_ignores_tenant :
    ((RoleResource.Delete roleRX roleStateX envDeleteOk).sent =
      some { method := "DELETE", url := "http://api/tenants/",
             body := none, basicAuth := some ("u", "p") }) ∧
    roleStateX.Tenant = "acme" ∧
    "http://api/tenants/" ≠ "http://api/tenants/" ++ roleStateX.Tenant :=
  ⟨rfl, rfl, by decide⟩

/-- C1 counterexample: a Tenant Create whose exchange completes with status
500 and a readable body returns with an empty diagnostics list even
though the operation failed (no state is saved) — the non-200 branch
records no diagnostic before returning. -/
theorem C1_counterexample :
    (TenantResource.Create tenantRX tenantPlanX envCreate500).diagnostics = [] ∧
    (TenantResource.Create tenantRX tenantPlanX envCreate500).state = none ∧
    envCreate500.outcome = Outcome.rejectedLogged :=
  ⟨rfl, rfl, rfl⟩

/-- C1 (amended): for every operation, request-build failures, transport
failures, body-read failures and decode failures append a diagnostics
record, and successful operations append none; but a completed exchange
with a non-200 status whose body is readable also appends no diagnostic
— that failure is only written to the provider log — so the diagnostics
list is empty exactly on success and on a logged non-200 rejection. -/
theorem C1_diagnostics_accounting :
    (∀ (r : TenantResource) (data : TenantResourceModel) (env : Env createResponse),
       (TenantResource.Create r data env).diagnostics = [] ↔
         env.outcome = Outcome.rejectedLogged ∨ (env.outcome).isSuccess = true) ∧
    (∀ (r : TenantResource) (data : TenantResourceModel) (env : Env readResponse),
       (TenantResource.Read r data env).diagnostics = [] ↔
         env.outcome = Outcome.rejectedLogged ∨ (env.outcome).isSuccess = true) ∧
    (∀ (r : TenantResource) (old data : TenantResourceModel) (env : Env updateResponse),
       (TenantResource.Update r old data env).diagnostics = [] ↔
         env.outcome = Outcome.rejectedLogged ∨ (env.outcome).isSuccess = true) ∧
    (∀ (r : TenantResource) (data : TenantResourceModel) (env : Env readResponse),
       (TenantResource.Delete r data env).diagnostics = [] ↔
         env.outcome = Outcome.rejectedLogged ∨ (env.outcome).isSuccess = true) ∧
    (∀ (r : RoleResource) (data : RoleResourceModel) (env : Env createRoleResponse),
       (RoleResource.Create r data env).diagnostics = [] ↔
         env.outcome = Outcome.rejectedLogged ∨ (env.outcome).isSuccess = true) ∧
    (∀ (r : RoleResource) (data : RoleResourceModel) (env : Env readRoleResponse),
       (RoleResource.Read r data env).diagnostics = [] ↔
         env.outcome = Outcome.rejectedLogged ∨ (env.outcome).isSuccess = true) ∧
    (∀ (r : RoleResource) (old data : RoleResourceModel) (env : Env updateResponse),
       (RoleResource.Update r old data env).diagnostics = [] ↔
         env.outcome = Outcome.rejectedLogged ∨ (env.outcome).isSuccess = true) ∧
    (∀ (r : RoleResource) (data : RoleResourceModel) (env : Env readResponse),
       (RoleResource.Delete r data env).diagnostics = [] ↔
         env.outcome = Outcome.rejectedLogged ∨ (env.outcome).isSuccess = true) ∧
    (∀ (d : TenantDataSource) (data : TenantDataSourceModel)
       (env : Env tenantDataReadResponse),
       (TenantDataSource.Read d data env).diagnostics = [] ↔
         env.outcome = Outcome.rejectedLogged ∨ (env.outcome).isSuccess = true) :=
  ⟨fun r data env => (tenantCreate_cases r data env).1,
   fun r data env => (tenantRead_cases r data env).1,
   fun r old data env => (tenantUpdate_cases r old data env).1,
   fun r data env => (tenantDelete_cases r data env).1,
   fun r data env => (roleCreate_cases r data env).1,
   fun r data env => (roleRead_cases r data env).1,
   fun r old data env => (roleUpdate_cases r old data env).1,
   fun r data env => (roleDelete_cases r data env).1,
   fun d data env => (dataSourceRead_cases d data env).1⟩

/-- C4: on every failing outcome of every operation the descriptor's id is
unchanged: each handler reaches resp.State.Set only on confirmed
success, so a failing operation stores nothing and the previously stored
descriptor — including its id — is retained; the Delete handlers
likewise leave their local descriptor untouched on failure. -/
theorem C4_id_preserved_on_failure :
    (∀ (r : TenantResource) (data : TenantResourceModel) (env : Env createResponse),
       (env.outcome).isSuccess = false →
       (TenantResource.Create r data env).state = none ∧
       storedAfter data (TenantResource.Create r data env) = data) ∧
    (∀ (r : TenantResource) (data : TenantResourceModel) (env : Env readResponse),
       (env.outcome).isSuccess = false →
       (TenantResource.Read r data env).state = none ∧
       storedAfter data (TenantResource.Read r data env) = data) ∧
    (∀ (r : TenantResource) (old data : TenantResourceModel) (env : Env updateResponse),
       (env.outcome).isSuccess = false →
       (TenantResource.Update r old data env).state = none ∧
       storedAfter old (TenantResource.Update r old data env) = old) ∧
    (∀ (r : TenantResource) (data : TenantResourceModel) (env : Env readResponse),
       (env.outcome).isSuccess = false →
       (TenantResource.Delete r data env).data = data) ∧
    (∀ (r : RoleResource) (data : RoleResourceModel) (env : Env createRoleResponse),
       (env.outcome).isSuccess = false →
       (RoleResource.Create r data env).state = none ∧
       storedAfter data (RoleResource.Create r data env) = data) ∧
    (∀ (r : RoleResource) (data : RoleResourceModel) (env : Env readRoleResponse),
       (env.outcome).isSuccess = false →
       (RoleResource.Read r data env).state = none ∧
       storedAfter data (RoleResource.Read r data env) = data) ∧
    (∀ (r : RoleResource) (old data : RoleResourceModel) (env : Env updateResponse),
       (env.outcome).isSuccess = false →
       (RoleResource.Update r old data env).state = none ∧
       storedAfter old (RoleResource.Update r old data env) = old) ∧
    (∀ (r : RoleResource) (data : RoleResourceModel) (env : Env readResponse),
       (env.outcome).isSuccess = false →
       (RoleResource.Delete r data env).data = data) ∧
    (∀ (d : TenantDataSource) (data : TenantDataSourceModel)
       (env : Env tenantDataReadResponse),
       (env.outcome).isSuccess = false →
       (TenantDataSource.Read d data env).state = none ∧
       storedAfter data (TenantDataSource.Read d data env) = data) := by
  refine ⟨fun r data env h => ?_, fun r data env h => ?_, fun r old data env h => ?_,
    fun r data env h => (tenantDelete_cases r data env).2.1 h,
    fun r data env h => ?_, fun r data env h => ?_, fun r old data env h => ?_,
    fun r data env h => (roleDelete_cases r data env).2.1 h,
    fun d data env h => ?_⟩
  · have hs := (tenantCreate_cases r data env).2.1 h
    exact ⟨hs, by simp [storedAfter, hs]⟩
  · have hs := (tenantRead_cases r data env).2.1 h
    exact ⟨hs, by simp [storedAfter, hs]⟩
  · have hs := (tenantUpdate_cases r old data env).2.1 h
    exact ⟨hs, by simp [storedAfter, hs]⟩
  · have hs := (roleCreate_cases r data env).2.1 h
    exact ⟨hs, by simp [storedAfter, hs]⟩
  · have hs := (roleRead_cases r data env).2.1 h
    exact ⟨hs, by simp [storedAfter, hs]⟩
  · have hs := (roleUpdate_cases r old data env).2.1 h
    exact ⟨hs, by simp [storedAfter, hs]⟩
  · have hs := (dataSourceRead_cases d data env).2.1 h
    exact ⟨hs, by simp [storedAfter, hs]⟩

/-- C4 witness: a Tenant Read whose exchange fails at the transport saves
nothing and the stored descriptor, id included, is unchanged. -/
theorem C4_id_preserved_on_failure_witness :
    (TenantResource.Read tenantRX tenantStateX envReadTransportErr).state = none ∧
    storedAfter tenantStateX
      (TenantResource.Read tenantRX tenantStateX envReadTransportErr) = tenantStateX :=
  C4_id_preserved_on_failure.2.1 tenantRX tenantStateX envReadTransportErr rfl

/-- C8: every request any handler hands to client.Do carries the HTTP
basic-authentication credentials from the shared provider
configuration, set by SetBasicAuth before dispatch. -/
theorem C8_basic_auth_on_every_request :
    (∀ (r : TenantResource) (data : TenantResourceModel) (env : Env createResponse)
       (req : HttpRequest), (TenantResource.Create r data env).sent = some req →
       req.basicAuth = some (r.providerData.username, r.providerData.password)) ∧
    (∀ (r : TenantResource) (data : TenantResourceModel) (env : Env readResponse)
       (req : HttpRequest), (TenantResource.Read r data env).sent = some req →
       req.basicAuth = some (r.providerData.username, r.providerData.password)) ∧
    (∀ (r : TenantResource) (old data : TenantResourceModel) (env : Env updateResponse)
       (req : HttpRequest), (TenantResource.Update r old data env).sent = some req →
       req.basicAuth = some (r.providerData.username, r.providerData.password)) ∧
    (∀ (r : TenantResource) (data : TenantResourceModel) (env : Env readResponse)
       (req : HttpRequest), (TenantResource.Delete r data env).sent = some req →
       req.basicAuth = some (r.providerData.username, r.providerData.password)) ∧
    (∀ (r : RoleResource) (data : RoleResourceModel) (env : Env createRoleResponse)
       (req : HttpRequest), (RoleResource.Create r data env).sent = some req →
       req.basicAuth = some (r.providerData.username, r.providerData.password)) ∧
    (∀ (r : RoleResource) (data : RoleResourceModel) (env : Env readRoleResponse)
       (req : HttpRequest), (RoleResource.Read r data env).sent = some req →
       req.basicAuth = some (r.providerData.username, r.providerData.password)) ∧
    (∀ (r : RoleResource) (old data : RoleResourceModel) (env : Env updateResponse)
       (req : HttpRequest), (RoleResource.Update r old data env).sent = some req →
       req.basicAuth = some (r.providerData.username, r.providerData.password)) ∧
    (∀ (r : RoleResource) (data : RoleResourceModel) (env : Env readResponse)
       (req : HttpRequest), (RoleResource.Delete r data env).sent = some req →
       req.basicAuth = some (r.providerData.username, r.providerData.password)) ∧
    (∀ (d : TenantDataSource) (data : TenantDataSourceModel)
       (env : Env tenantDataReadResponse) (req : HttpRequest),
       (TenantDataSource.Read d data env).sent = some req →
       req.basicAuth = some (d.username, d.password)) :=
  ⟨fun r data env => (tenantCreate_cases r data env).2.2.1,
   fun r data env => (tenantRead_cases r data env).2.2.1,
   fun r old data env => (tenantUpdate_cases r old data env).2.2.1,
   fun r data env => (tenantDelete_cases r data env).2.2.1,
   fun r data env => (roleCreate_cases r data env).2.2.1,
   fun r data env => (roleRead_cases r data env).2.2.1,
   fun r old data env => (roleUpdate_cases r old data env).2.2.1,
   fun r data env => (roleDelete_cases r data env).2.2.1,
   fun d data env => (dataSourceRead_cases d data env).2.2.1⟩

/-- C8 witness: the concrete request dispatched by a Tenant Create under
the configuration pdX carries basic auth with username "u" and password
"p". -/
theorem C8_basic_auth_on_every_request_witness :
    sentCreateReqX.basicAuth = some ("u", "p") :=
  C8_basic_auth_on_every_request.1 tenantRX tenantPlanX envCreateOk sentCreateReqX rfl

/-- C5: Tenant Create with desired name n posts the body {"tenant": n} to
{endpoint}/tenants; when the exchange returns 200 and the body decodes
as {id}, the saved descriptor has that id and still the name n; on a
non-200 status nothing is saved, so the descriptor's id is unmutated. -/
theorem C5_tenant_create_contract :
    ∀ (r : TenantResource) (data : TenantResourceModel) (env : Env createResponse),
      (env.buildErr = none → (TenantResource.Create r data env).sent =
        some { method := "POST", url := r.providerData.endpoint ++ "/tenants",
               body := some (Json.obj [("tenant", Json.str data.Name)]),
               basicAuth := some (r.providerData.username, r.providerData.password) }) ∧
      (∀ (res : Response) (b : String) (a : createResponse),
        env.doResult = Except.ok res → res.statusCode = 200 →
        res.readBody = Except.ok b → env.decode b = Except.ok a → env.buildErr = none →
        (TenantResource.Create r data env).state =
          some { Name := data.Name, ID := a.ID }) ∧
      (∀ res : Response, env.doResult = Except.ok res → res.statusCode ≠ 200 →
        (TenantResource.Create r data env).state = none) := by
  intro r data env
  refine ⟨(tenantCreate_cases r data env).2.2.2.2.2.1, ?_, ?_⟩
  · intro res b a hdo hsc hrb hdec hbe
    have hout : env.outcome = Outcome.success a := by
      simp [Env.outcome, hbe, hdo, hsc, hrb, hdec]
    exact ((tenantCreate_cases r data env).2.2.2.2.2.2 a hout).2
  · intro res hdo hsc
    exact ((tenantCreate_cases r data env).2.2.2.1 res hdo hsc).1

/-- C5 witness: a concrete Tenant Create of name "acme": the dispatched
request, the state saved when a 200 response decodes to id "id42", and
the absence of saved state on a 500 response. -/
theorem C5_tenant_create_contract_witness :
    (TenantResource.Create tenantRX tenantPlanX envCreateOk).sent = some sentCreateReqX ∧
    (TenantResource.Create tenantRX tenantPlanX envCreateOk).state =
      some { Name := "acme", ID := "id42" } ∧
    (TenantResource.Create tenantRX tenantPlanX envCreate500).state = none := by
  refine ⟨?_, ?_, ?_⟩
  · exact (C5_tenant_create_contract tenantRX tenantPlanX envCreateOk).1 rfl
  · exact (C5_tenant_create_contract tenantRX tenantPlanX envCreateOk).2.1
      { statusCode := 200, readBody := Except.ok ("{}") } "{}" { ID := "id42" }
      rfl rfl rfl rfl rfl
  · exact (C5_tenant_create_contract tenantRX tenantPlanX envCreate500).2.2
      { statusCode := 500, readBody := Except.ok ("denied") } rfl (by decide)

/-- C6: a completed exchange is treated as success exactly when the status
code is 200: each handler saves state only when the status was 200; on
any other status it saves nothing (Delete handlers keep their local
descriptor) and the whole result is independent of the success-schema
decoder, so the response body is never decoded with the success
schema. -/
theorem C6_success_is_exactly_200 :
    (∀ (r : TenantResource) (data : TenantResourceModel) (env : Env createResponse),
       ((TenantResource.Create r data env).state.isSome = true →
          ∃ res, env.doResult = Except.ok res ∧ res.statusCode = 200) ∧
       (∀ res : Response, env.doResult = Except.ok res → res.statusCode ≠ 200 →
          (TenantResource.Create r data env).state = none ∧
          ∀ d2, TenantResource.Create r data { env with decode := d2 } =
            TenantResource.Create r data env)) ∧
    (∀ (r : TenantResource) (data : TenantResourceModel) (env : Env readResponse),
       ((TenantResource.Read r data env).state.isSome = true →
          ∃ res, env.doResult = Except.ok res ∧ res.statusCode = 200) ∧
       (∀ res : Response, env.doResult = Except.ok res → res.statusCode ≠ 200 →
          (TenantResource.Read r data env).state = none ∧
          ∀ d2, TenantResource.Read r data { env with decode := d2 } =
            TenantResource.Read r data env)) ∧
    (∀ (r : TenantResource) (old data : TenantResourceModel) (env : Env updateResponse),
       ((TenantResource.Update r old data env).state.isSome = true →
          ∃ res, env.doResult = Except.ok res ∧ res.statusCode = 200) ∧
       (∀ res : Response, env.doResult = Except.ok res → res.statusCode ≠ 200 →
          (TenantResource.Update r old data env).state = none ∧
          ∀ d2, TenantResource.Update r old data { env with decode := d2 } =
            TenantResource.Update r old data env)) ∧
    (∀ (r : TenantResource) (data : TenantResourceModel) (env : Env readResponse),
       ∀ res : Response, env.doResult = Except.ok res → res.statusCode ≠ 200 →
         (TenantResource.Delete r data env).data = data ∧
         ∀ d2, TenantResource.Delete r data { env with decode := d2 } =
           TenantResource.Delete r data env) ∧
    (∀ (r : RoleResource) (data : RoleResourceModel) (env : Env createRoleResponse),
       ((RoleResource.Create r data env).state.isSome = true →
          ∃ res, env.doResult = Except.ok res ∧ res.statusCode = 200) ∧
       (∀ res : Response, env.doResult = Except.ok res → res.statusCode ≠ 200 →
          (RoleResource.Create r data env).state = none ∧
          ∀ d2, RoleResource.Create r data { env with decode := d2 } =
            RoleResource.Create r data env)) ∧
    (∀ (r : RoleResource) (data : RoleResourceModel) (env : Env readRoleResponse),
       ((RoleResource.Read r data env).state.isSome = true →
          ∃ res, env.doResult = Except.ok res ∧ res.statusCode = 200) ∧
       (∀ res : Response, env.doResult = Except.ok res → res.statusCode ≠ 200 →
          (RoleResource.Read r data env).state = none ∧
          ∀ d2, RoleResource.Read r data { env with decode := d2 } =
            RoleResource.Read r data env)) ∧
    (∀ (r : RoleResource) (old data : RoleResourceModel) (env : Env updateResponse),
       ((RoleResource.Update r old data env).state.isSome = true →
          ∃ res, env.doResult = Except.ok res ∧ res.statusCode = 200) ∧
       (∀ res : Response, env.doResult = Except.ok res → res.statusCode ≠ 200 →
          (RoleResource.Update r old data env).state = none ∧
          ∀ d2, RoleResource.Update r old data { env with decode := d2 } =
            RoleResource.Update r old data env)) ∧
    (∀ (r : RoleResource) (data : RoleResourceModel) (env : Env readResponse),
       ∀ res : Response, env.doResult = Except.ok res → res.statusCode ≠ 200 →
         (RoleResource.Delete r data env).data = data ∧
         ∀ d2, RoleResource.Delete r data { env with decode := d2 } =
           RoleResource.Delete r data env) ∧
    (∀ (d : TenantDataSource) (data : TenantDataSourceModel)
       (env : Env tenantDataReadResponse),
       ((TenantDataSource.Read d data env).state.isSome = true →
          ∃ res, env.doResult = Except.ok res ∧ res.statusCode = 200) ∧
       (∀ res : Response, env.doResult = Except.ok res → res.statusCode ≠ 200 →
          (TenantDataSource.Read d data env).state = none ∧
          ∀ d2, TenantDataSource.Read d data { env with decode := d2 } =
            TenantDataSource.Read d data env)) :=
  ⟨fun r data env =>
     ⟨(tenantCreate_cases r data env).2.2.2.2.1, (tenantCreate_cases r data env).2.2.2.1⟩,
   fun r data env =>
     ⟨(tenantRead_cases r data env).2.2.2.2.1, (tenantRead_cases r data env).2.2.2.1⟩,
   fun r old data env =>
     ⟨(tenantUpdate_cases r old data env).2.2.2.2.1,
      (tenantUpdate_cases r old data env).2.2.2.1⟩,
   fun r data env => (tenantDelete_cases r data env).2.2.2.1,
   fun r data env =>
     ⟨(roleCreate_cases r data env).2.2.2.2.1, (roleCreate_cases r data env).2.2.2.1⟩,
   fun r data env =>
     ⟨(roleRead_cases r data env).2.2.2.2.1, (roleRead_cases r data env).2.2.2.1⟩,
   fun r old data env =>
     ⟨(roleUpdate_cases r old data env).2.2.2.2.1,
      (roleUpdate_cases r old data env).2.2.2.1⟩,
   fun r data env => (roleDelete_cases r data env).2.2.2.1,
   fun d data env =>
     ⟨(dataSourceRead_cases d data env).2.2.2.2.1,
      (dataSourceRead_cases d data env).2.2.2.1⟩⟩

/-- C6 witness: a Role Read rejected with status 403 saves no state, and
replacing the success-schema decoder changes nothing about the result. -/
theorem C6_success_is_exactly_200_witness :
    (RoleResource.Read roleRX roleStateX envRoleRead403).state = none ∧
    RoleResource.Read roleRX roleStateX { envRoleRead403 with decode := decodeRoleZ } =
      RoleResource.Read roleRX roleStateX envRoleRead403 := by
  have h := (C6_success_is_exactly_200.2.2.2.2.2.1 roleRX roleStateX envRoleRead403).2
    { statusCode := 403, readBody := Except.ok ("forbidden") } rfl (by decide)
  exact ⟨h.1, h.2 decodeRoleZ⟩

/-- C7: a successful Role Create followed by a successful Role Read stores
the planned scopes unchanged, element for element and in order: any
state saved by Create carries the plan's scopes, and any state saved by
Read carries its input state's scopes. -/
theorem C7_scopes_roundtrip :
    ∀ (r : RoleResource) (plan : RoleResourceModel) (env1 : Env createRoleResponse)
      (env2 : Env readRoleResponse) (st1 st2 : RoleResourceModel),
      (RoleResource.Create r plan env1).state = some st1 →
      (RoleResource.Read r st1 env2).state = some st2 →
      st2.Scopes = plan.Scopes := by
  intro r plan env1 env2 st1 st2 h1 h2
  have ha := ((roleCreate_cases r plan env1).2.2.2.2.2.2.2 st1 h1).2.2
  have hb := ((roleRead_cases r st1 env2).2.2.2.2.2.2 st2 h2).2.2
  rw [hb, ha]

/-- C7 witness: a Role Create with scopes ["read", "write"] that succeeds
with id "id9", followed by a successful Read, stores exactly
["read", "write"] in order. -/
theorem C7_scopes_roundtrip_witness :
    roleSt1X.Scopes = ["read", "write"] :=
  C7_scopes_roundtrip roleRX rolePlanX envRoleCreateOk envRoleReadOk roleSt1X roleSt1X
    rfl rfl

/-- C9: a Role Read that completes with status 200 and a decodable body
takes only the id from the response: the saved name, tenant and scopes
are the prior state's values, whatever name, tenant and scopes the
response carried. -/
theorem C9_role_read_frame :
    ∀ (r : RoleResource) (data : RoleResourceModel) (env : Env readRoleResponse)
      (res : Response) (b : String) (nr : readRoleResponse),
      env.buildErr = none → env.doResult = Except.ok res → res.statusCode = 200 →
      res.readBody = Except.ok b → env.decode b = Except.ok nr →
      (RoleResource.Read r data env).state =
        some { ID := nr.ID, Name := data.Name, Tenant := data.Tenant,
               Scopes := data.Scopes } := by
  intro r data env res b nr hbe hdo hsc hrb hdec
  have hout : env.outcome = Outcome.success nr := by
    simp [Env.outcome, hbe, hdo, hsc, hrb, hdec]
  exact ((roleRead_cases r data env).2.2.2.2.2.1 nr hout).2

/-- C9 witness: a Role Read whose 200 response decodes to a different
name, tenant and scopes still stores the prior name "admin", tenant
"acme" and scopes ["read"], taking only the id "id9" from the
response. -/
theorem C9_role_read_frame_witness :
    (RoleResource.Read roleRX roleStateX envRoleReadOk).state =
      some { ID := "id9", Name := "admin", Tenant := "acme", Scopes := ["read"] } :=
  C9_role_read_frame roleRX roleStateX envRoleReadOk
    { statusCode := 200, readBody := Except.ok ("{}") } "{}"
    { ID := "id9", Name := "remoteName", Tenant := "remoteTenant",
      Scopes := ["remoteScope"] }
    rfl rfl rfl rfl rfl

/-- C1 witness: a successful concrete Tenant Create accumulates no
diagnostics, instantiating the diagnostics-accounting equivalence. -/
theorem C1_diagnostics_accounting_witness :
    (TenantResource.Create tenantRX tenantPlanX envCreateOk).diagnostics = [] :=
  (C1_diagnostics_accounting.1 tenantRX tenantPlanX envCreateOk).mpr (Or.inr rfl)

/-- C10 witness: under the provider type name "authproxy" the Role
resource reports the type name "authproxy_tenant", equal to the Tenant
resource's. -/
theorem C10_registration_witness :
    RoleResource.MetadataTypeName ("authproxy") = "authproxy_tenant" ∧
    RoleResource.MetadataTypeName ("authproxy") =
      TenantResource.MetadataTypeName ("authproxy") :=
  C10_registration.2.2.2 ("authproxy")
